import Mathlib

/-!
Verification development for the tutor agent core (src/backend/src/agent.py):
content store, tutor state, tool surface and teach-back scoring heuristic.

The Python code is shallowly embedded: each tool becomes a pure Lean
function over an explicit state, the module-level COURSE_CONTENT becomes an
explicit parameter, and machine-level details are modelled as follows.

Python str.split() (no argument) splits on maximal whitespace runs and
drops empty pieces; str.lower(), str.strip() act per character (the inputs
of interest are ASCII). Python substring test `kw in s` is contiguous
occurrence. Python `int((match / total) * 10)` truncates a nonnegative
float toward zero; over the reachable domain (0 <= match <= total <= 12,
total >= 1) IEEE double arithmetic gives exactly the rational value
floor(match * 10 / total), checked exhaustively, so the embedding uses Nat
division.

Python `set(text.split())` has an iteration order the language does not
determine. The embedding makes that order an explicit parameter
`setOrder`, constrained to enumerate exactly the distinct tokens
(ValidSetOrder below).
-/

namespace TutorAgent

/-- Topic record as used by the tools: the code accesses fields id, title,
summary (and the optional sample_question, teaching_prompt). -/
structure TopicRecord where
  id : String
  title : String
  summary : String
  sample_question : Option String := none
  teaching_prompt : Option String := none
deriving DecidableEq, Repr

/-! ### String helpers mirroring the Python primitives -/

/-- Accumulating tokenizer: models Python str.split() with no separator,
which yields the maximal runs of non-whitespace characters. -/
def tokensAux : List Char → List Char → List String
  | [], acc => if acc.isEmpty then [] else [String.mk acc.reverse]
  | c :: rest, acc =>
      if c.isWhitespace then
        if acc.isEmpty then tokensAux rest []
        else String.mk acc.reverse :: tokensAux rest []
      else tokensAux rest (c :: acc)

/-- Whitespace tokens of a string, per Python str.split(). -/
def pyTokens (s : String) : List String := tokensAux s.data []

/-- Python str.lower() (ASCII range, which covers the content at hand). -/
def lowerStr (s : String) : String := String.mk (s.data.map Char.toLower)

/-- Python str.strip(): drop whitespace from both ends. -/
def trimStr (s : String) : String :=
  String.mk (((s.data.dropWhile Char.isWhitespace).reverse.dropWhile
    Char.isWhitespace).reverse)

/-- Identifier normalization used by select_topic and set_mode:
Python `.strip().lower()`. -/
def normalize (s : String) : String := lowerStr (trimStr s)

/-- Boolean test that `p` starts `s` (character lists). -/
def isPrefixB : List Char → List Char → Bool
  | [], _ => true
  | _ :: _, [] => false
  | a :: as, b :: bs => a == b && isPrefixB as bs

/-- Boolean contiguous-occurrence test, models Python `p in s` on the
underlying character lists. -/
def subAux (p : List Char) : List Char → Bool
  | [] => p.isEmpty
  | c :: tl => isPrefixB p (c :: tl) || subAux p tl

/-- Python substring test `sub in s`. -/
def containsSub (sub s : String) : Bool := subAux sub.data s.data

/-- Proposition form of the substring test. -/
def occursIn (sub s : String) : Prop := containsSub sub s = true

instance (sub s : String) : Decidable (occursIn sub s) := by
  unfold occursIn; infer_instance

/-! ### State -/

/-- TutorState dataclass: mode defaults to "learn", no topic selected,
history initialized to the empty list by post-init. -/
structure TutorState where
  mode : String := "learn"
  current_topic_id : Option String := none
  history : List (List (String × String)) := []
deriving DecidableEq, Repr

/-- A fresh session state, as constructed by the entrypoint. -/
def initState : TutorState := {}

/-- TutorState.topic: `if not self.current_topic_id: return None` treats
both None and the empty string as no selection (Python falsiness), then a
linear scan for the first record whose raw id equals the stored id. -/
def TutorState.topic (content : List TopicRecord) (st : TutorState) :
    Option TopicRecord :=
  match st.current_topic_id with
  | none => none
  | some tid =>
      if tid = "" then none
      else content.find? (fun t => t.id == tid)

/-! ### Tools -/

/-- Python `"; ".join`. -/
def joinSemicolon : List String → String
  | [] => ""
  | [x] => x
  | x :: xs => x ++ "; " ++ joinSemicolon xs

/-- Tool list_topics. -/
def list_topics (content : List TopicRecord) : String :=
  "Available topics: " ++
    joinSemicolon (content.map (fun t => t.id ++ " (" ++ t.title ++ ")"))

/-- Tool select_topic: normalize the input, scan for a record whose raw
stored id equals the normalized input; on miss return the not-found
message plus the topic listing, on hit store the normalized id. -/
def select_topic (content : List TopicRecord) (st : TutorState)
    (topic_id : String) : TutorState × String :=
  let tid := normalize topic_id
  match content.find? (fun t => t.id == tid) with
  | none =>
      (st, "Topic '" ++ topic_id ++ "' not found. " ++ list_topics content)
  | some found =>
      ({ st with current_topic_id := some tid },
       "Selected topic: " ++ found.title ++ ".")

/-- VOICE_MAP table: mode to (voice, style). -/
def VOICE_MAP : List (String × String × String) :=
  [("learn", "en-US-matthew", "Promo"),
   ("quiz", "en-US-alicia", "Conversation"),
   ("teach_back", "en-US-ken", "Conversational")]

/-- Voice configuration of the live session (the part of the external TTS
object that update_options mutates). -/
structure SessionVoice where
  voice : String
  style : String
deriving DecidableEq, Repr

/-- Tool set_mode. `session = none` models a missing session or a session
without a tts attribute; `updateRaises` models update_options raising, in
which case the exception is caught and the voice is left as it was. The
mode assignment happens before the try block, so it is unaffected. -/
def set_mode (st : TutorState) (mode : String)
    (session : Option SessionVoice) (updateRaises : Bool) :
    TutorState × Option SessionVoice × String :=
  let m := normalize mode
  match VOICE_MAP.find? (fun p => p.1 == m) with
  | none => (st, session, "Invalid mode. Choose learn, quiz, or teach_back.")
  | some (_, voice, style) =>
      let st' := { st with mode := m }
      match session with
      | none => (st', none, "Mode set to " ++ m ++ ".")
      | some sv =>
          let sv' := if updateRaises then sv else { voice := voice, style := style }
          (st', some sv', "Mode set to " ++ m ++ ".")

/-- Tool explain_topic. -/
def explain_topic (content : List TopicRecord) (st : TutorState) : String :=
  match st.topic content with
  | none => "No topic selected. Use select_topic first."
  | some topic => topic.summary

/-- Tool ask_quiz: `topic.get("sample_question", ...)`. -/
def ask_quiz (content : List TopicRecord) (st : TutorState) : String :=
  match st.topic content with
  | none => "No topic selected. Use select_topic first."
  | some topic => topic.sample_question.getD "No sample question available."

/-- Tool prompt_teachback: teaching_prompt, falling back to
sample_question, falling back to a generic prompt. -/
def prompt_teachback (content : List TopicRecord) (st : TutorState) : String :=
  match st.topic content with
  | none => "No topic selected. Use select_topic first."
  | some topic =>
      topic.teaching_prompt.getD
        (topic.sample_question.getD "Please explain this topic back to me.")

/-! ### Teach-back scoring -/

/-- Keyword list: iterate the token set in its enumeration order, keep
tokens longer than 3 characters, truncate to the first 12
(`[w for w in set(text_src.split()) if len(w) > 3][:12]`). -/
def teachbackKeywords (setOrder : List String) : List String :=
  (setOrder.filter (fun w => w.length > 3)).take 12

/-- Number of keywords occurring as substrings of the lower-cased answer. -/
def teachbackMatch (setOrder : List String) (user_answer : String) : Nat :=
  (teachbackKeywords setOrder).countP
    (fun kw => containsSub kw (lowerStr user_answer))

/-- The score: `int((match / total) * 10)` with `total = max(1, len(keywords))`,
then `max(1, min(10, score))`. Truncation of the nonnegative quotient is
Nat division (exact over the reachable domain, see the header note). -/
def teachbackScore (setOrder : List String) (user_answer : String) : Nat :=
  let mtch := teachbackMatch setOrder user_answer
  let total := max 1 (teachbackKeywords setOrder).length
  max 1 (min 10 (mtch * 10 / total))

/-- The set of tokens of the reference text `title + " " + summary`,
lower-cased. `setOrder` must enumerate exactly these distinct tokens; any
such enumeration is a possible Python set iteration order. -/
def ValidSetOrder (topic : TopicRecord) (setOrder : List String) : Prop :=
  List.Perm setOrder
    (pyTokens (lowerStr (topic.title ++ " " ++ topic.summary))).dedup

instance (topic : TopicRecord) (setOrder : List String) :
    Decidable (ValidSetOrder topic setOrder) := by
  unfold ValidSetOrder
  exact decidable_of_iff _ List.isPerm_iff

/-- Tool evaluate_teachback. -/
def evaluate_teachback (content : List TopicRecord) (st : TutorState)
    (setOrder : List String) (user_answer : String) : String :=
  match st.topic content with
  | none => "No topic selected."
  | some _topic =>
      let score := teachbackScore setOrder user_answer
      let feedback :=
        if score ≥ 8 then "Great — clear and covers main points."
        else if score ≥ 5 then
          "Good — covers some points; try adding a short example or definition."
        else "Needs improvement — try a short definition and an example."
      feedback ++ " (score: " ++ toString score ++ "/10)"

/-! ### The tool surface as a step relation -/

/-- One invocation of a tool, together with the environment choices it
depends on (the TTS session and whether update_options raises, the set
iteration order for scoring). -/
inductive ToolCall where
  | list_topics
  | select_topic (topic_id : String)
  | set_mode (mode : String) (session : Option SessionVoice) (updateRaises : Bool)
  | explain_topic
  | ask_quiz
  | prompt_teachback
  | evaluate_teachback (setOrder : List String) (user_answer : String)
deriving DecidableEq

/-- Effect of one tool call on the tutor state, with its textual reply. -/
def applyTool (content : List TopicRecord) (st : TutorState) :
    ToolCall → TutorState × String
  | .list_topics => (st, list_topics content)
  | .select_topic topic_id => select_topic content st topic_id
  | .set_mode mode session updateRaises =>
      let r := set_mode st mode session updateRaises
      (r.1, r.2.2)
  | .explain_topic => (st, explain_topic content st)
  | .ask_quiz => (st, ask_quiz content st)
  | .prompt_teachback => (st, prompt_teachback content st)
  | .evaluate_teachback setOrder user_answer =>
      (st, evaluate_teachback content st setOrder user_answer)

/-- State after a sequence of tool calls from a fresh session. -/
def execTools (content : List TopicRecord) (calls : List ToolCall) : TutorState :=
  calls.foldl (fun s c => (applyTool content s c).1) initState

/-- The selection invariant: a stored topic id resolves to a record. -/
def Inv (content : List TopicRecord) (st : TutorState) : Prop :=
  ∀ tid, st.current_topic_id = some tid → ∃ r ∈ content, r.id = tid

/-! ### Content loading (load_content) -/

/-- A parsed record as it may appear in the JSON document: no field is
guaranteed, load_content performs no validation. -/
structure RawTopicRecord where
  id : Option String := none
  title : Option String := none
  summary : Option String := none
  sample_question : Option String := none
  teaching_prompt : Option String := none
deriving DecidableEq, Repr

/-- The backing document as the loader can observe it: absent file,
present but not valid JSON, or a parsed list of records. -/
inductive ContentDoc where
  | missing
  | unparsable
  | parsed (records : List RawTopicRecord)
deriving DecidableEq

/-- The two failures load_content can raise: FileNotFoundError when the
path does not exist, a JSON decode error from json.loads otherwise. -/
inductive ContentLoadError where
  | fileNotFound
  | parseError
deriving DecidableEq, Repr

/-- load_content: existence check then json.loads; the parsed records are
returned as-is, with no check of required fields. -/
def load_content : ContentDoc → Except ContentLoadError (List RawTopicRecord)
  | .missing => .error .fileNotFound
  | .unparsable => .error .parseError
  | .parsed rs => .ok rs

/-! ### Spec-side definitions (from the words of the specification) -/

/-- Rounding of num/den to the nearest integer, ties to even, as Python
round() behaves on an exact half; spec formula `round((matches /
max(1, keyword_count)) * 10)`. -/
def specRoundHalfEven (num den : Nat) : Nat :=
  let q := num / den
  let r := num % den
  if 2 * r < den then q
  else if den < 2 * r then q + 1
  else if q % 2 = 0 then q else q + 1

/-- Score as the claim states it: round, then clamp to [1, 10]. -/
def claimScoreRound (matchCount keywordCount : Nat) : Nat :=
  min 10 (max 1 (specRoundHalfEven (matchCount * 10) (max 1 keywordCount)))

/-- Score as the code computes it: truncate, then clamp to [1, 10]. -/
def claimScoreTrunc (matchCount keywordCount : Nat) : Nat :=
  min 10 (max 1 (matchCount * 10 / max 1 keywordCount))

/-- The three-tier feedback band of the spec: at least 8 clear, at least 5
covers some points, below 5 needs improvement. -/
def specFeedbackBand (score : Nat) : String :=
  if 8 ≤ score then "Great — clear and covers main points."
  else if 5 ≤ score then
    "Good — covers some points; try adding a short example or definition."
  else "Needs improvement — try a short definition and an example."

/-! ### Helper lemmas: the substring test -/

theorem subAux_nil_pat (s : List Char) : subAux [] s = true := by
  induction s with
  | nil => rfl
  | cons c tl ih => simp [subAux, isPrefixB]

theorem isPrefixB_refl (p : List Char) : isPrefixB p p = true := by
  induction p with
  | nil => rfl
  | cons a as ih => simp [isPrefixB, ih]

theorem isPrefixB_append (p s t : List Char) (h : isPrefixB p s = true) :
    isPrefixB p (s ++ t) = true := by
  induction p generalizing s with
  | nil => rfl
  | cons a as ih =>
    cases s with
    | nil => simp [isPrefixB] at h
    | cons b bs =>
      simp only [isPrefixB, List.cons_append, Bool.and_eq_true, beq_iff_eq] at h ⊢
      exact ⟨h.1, ih bs h.2⟩

theorem subAux_of_isPrefixB (p s : List Char) (h : isPrefixB p s = true) :
    subAux p s = true := by
  cases s with
  | nil =>
    cases p with
    | nil => rfl
    | cons a as => simp [isPrefixB] at h
  | cons c tl =>
    simp only [subAux, Bool.or_eq_true]
    exact Or.inl h

theorem subAux_append_left (p t s : List Char) (h : subAux p s = true) :
    subAux p (t ++ s) = true := by
  induction t with
  | nil => simpa using h
  | cons c ct ih =>
    simp only [List.cons_append, subAux, Bool.or_eq_true]
    exact Or.inr ih

theorem subAux_append_right (p s t : List Char) (h : subAux p s = true) :
    subAux p (s ++ t) = true := by
  induction s with
  | nil =>
    cases p with
    | nil => simpa using subAux_nil_pat t
    | cons a as => simp [subAux] at h
  | cons c tl ih =>
    simp only [subAux, Bool.or_eq_true, List.cons_append] at h ⊢
    rcases h with h | h
    · exact Or.inl (isPrefixB_append _ _ _ h)
    · exact Or.inr (ih h)

theorem occursIn_refl (s : String) : occursIn s s :=
  subAux_of_isPrefixB _ _ (isPrefixB_refl s.data)

theorem occursIn_append_right (sub a b : String) (h : occursIn sub a) :
    occursIn sub (a ++ b) := by
  unfold occursIn containsSub at *
  rw [String.data_append]
  exact subAux_append_right _ _ _ h

theorem occursIn_append_left (sub a b : String) (h : occursIn sub b) :
    occursIn sub (a ++ b) := by
  unfold occursIn containsSub at *
  rw [String.data_append]
  exact subAux_append_left _ _ _ h

/-- Every listed record id occurs in the joined topic listing. -/
theorem occursIn_joinSemicolon_id (l : List TopicRecord) (r : TopicRecord)
    (hr : r ∈ l) :
    occursIn r.id
      (joinSemicolon (l.map (fun t => t.id ++ " (" ++ t.title ++ ")"))) := by
  induction l with
  | nil => cases hr
  | cons a tl ih =>
    have hfa : occursIn a.id (a.id ++ " (" ++ a.title ++ ")") :=
      occursIn_append_right _ _ _
        (occursIn_append_right _ _ _
          (occursIn_append_right _ _ _ (occursIn_refl a.id)))
    cases tl with
    | nil =>
      rcases List.mem_singleton.mp hr with rfl
      exact hfa
    | cons b tb =>
      rcases List.mem_cons.mp hr with rfl | hmem
      · show occursIn r.id ((r.id ++ " (" ++ r.title ++ ")") ++ "; " ++ _)
        exact occursIn_append_right _ _ _ (occursIn_append_right _ _ _ hfa)
      · show occursIn r.id ((a.id ++ " (" ++ a.title ++ ")") ++ "; " ++ _)
        exact occursIn_append_left _ _ _ (ih hmem)

theorem occursIn_list_topics (content : List TopicRecord) (r : TopicRecord)
    (hr : r ∈ content) : occursIn r.id (list_topics content) :=
  occursIn_append_left _ _ _ (occursIn_joinSemicolon_id content r hr)

/-! ### Helper lemmas: clamping -/

theorem clamp_comm (x : Nat) : max 1 (min 10 x) = min 10 (max 1 x) := by
  simp only [Nat.min_def, Nat.max_def]
  split_ifs <;> omega

theorem teachbackScore_ge_one (setOrder : List String) (a : String) :
    1 ≤ teachbackScore setOrder a :=
  Nat.le_max_left _ _

theorem teachbackScore_le_ten (setOrder : List String) (a : String) :
    teachbackScore setOrder a ≤ 10 :=
  Nat.max_le.mpr ⟨by omega, Nat.min_le_left _ _⟩

/-! ### Shared concrete fixtures for witnesses and counterexamples -/

def demoTopic : TopicRecord := { id := "loops", title := "Loops", summary := "repeat blocks" }

def demoStore : List TopicRecord := [demoTopic]

def demoState : TutorState := { current_topic_id := some "loops" }

def demoOrder : List String := ["loops", "repeat", "blocks"]

/-! ### Claim C4 -/

/-- C4, amended: load_content fails if and only if the backing document is
missing (FileNotFoundError) or unparsable (json.loads error); parsed
records are returned in order as-is, with no validation of the required
fields id, title, summary. -/
theorem C4_load_content_failure_iff (d : ContentDoc) :
    ((∃ e, load_content d = .error e) ↔ (d = .missing ∨ d = .unparsable)) ∧
    load_content .missing = .error .fileNotFound ∧
    load_content .unparsable = .error .parseError ∧
    ∀ rs, load_content (.parsed rs) = .ok rs := by
  refine ⟨?_, rfl, rfl, fun rs => rfl⟩
  cases d <;> simp [load_content]

/-- C4, counterexample: a parsed document whose single record lacks the
required fields title and summary loads successfully, while the claim
says malformed records (missing required fields) make loading fail. -/
theorem C4_counterexample :
    load_content (.parsed [{ id := some "x" }]) = .ok [{ id := some "x" }] ∧
    ({ id := some "x" } : RawTopicRecord).title = none ∧
    ({ id := some "x" } : RawTopicRecord).summary = none :=
  ⟨rfl, rfl, rfl⟩

/-! ### Claim C6 -/

/-- C6: for every m in {learn, quiz, teach_back}, set_mode sets the state
mode to m and returns the confirmation string, for every session value and
whether or not the voice update raises; the TTS failure is swallowed. -/
theorem C6_set_mode_valid (st : TutorState) (m : String)
    (session : Option SessionVoice) (updateRaises : Bool)
    (hm : m = "learn" ∨ m = "quiz" ∨ m = "teach_back") :
    (set_mode st m session updateRaises).1.mode = m ∧
    (set_mode st m session updateRaises).2.2 = "Mode set to " ++ m ++ "." := by
  rcases hm with rfl | rfl | rfl <;> cases session <;> cases updateRaises <;>
    exact ⟨rfl, rfl⟩

/-- C6 witness: a concrete valid mode switch with a raising TTS update. -/
theorem C6_set_mode_valid_witness :
    (set_mode initState "quiz" (some ⟨"en-US-matthew", "Promo"⟩) true).1.mode = "quiz" ∧
    (set_mode initState "quiz" (some ⟨"en-US-matthew", "Promo"⟩) true).2.2 =
      "Mode set to " ++ "quiz" ++ "." :=
  C6_set_mode_valid initState "quiz" (some ⟨"en-US-matthew", "Promo"⟩) true
    (Or.inr (Or.inl rfl))

/-! ### Claim C7 -/

/-- C7, amended: for every string m whose trimmed lower-cased form is not
in {learn, quiz, teach_back}, set_mode leaves the whole state, and the
session, unchanged and returns the rejection string listing the valid
modes. (The unamended claim, quantifying over raw strings, fails: the code
normalizes its input first, so "LEARN" is accepted.) -/
theorem C7_set_mode_invalid (st : TutorState) (m : String)
    (session : Option SessionVoice) (updateRaises : Bool)
    (hn : normalize m ∉ (["learn", "quiz", "teach_back"] : List String)) :
    set_mode st m session updateRaises =
      (st, session, "Invalid mode. Choose learn, quiz, or teach_back.") := by
  have hfind : VOICE_MAP.find? (fun p => p.1 == normalize m) = none := by
    rw [List.find?_eq_none]
    intro x hx
    have hne : x.1 ≠ normalize m := by
      simp only [VOICE_MAP, List.mem_cons, List.not_mem_nil, or_false] at hx
      rcases hx with rfl | rfl | rfl <;>
        · intro h
          rw [← h] at hn
          simp at hn
    simpa using hne
  simp only [set_mode, hfind]

/-- C7 witness: the rejected mode string "banana". -/
theorem C7_set_mode_invalid_witness :
    set_mode initState "banana" none false =
      (initState, none, "Invalid mode. Choose learn, quiz, or teach_back.") :=
  C7_set_mode_invalid initState "banana" none false (by decide)

/-- C7, counterexample: "LEARN" is not an element of
{learn, quiz, teach_back}, yet set_mode changes the mode from "quiz" to
"learn" and returns a confirmation, not a rejection. -/
theorem C7_counterexample :
    ("LEARN" ∉ (["learn", "quiz", "teach_back"] : List String)) ∧
    (set_mode { mode := "quiz" } "LEARN" none false).1.mode = "learn" ∧
    (set_mode { mode := "quiz" } "LEARN" none false).2.2 = "Mode set to learn." := by
  decide

/-! ### Claim C8 -/

/-- C8: for every probe string whose normalization equals no stored topic
id, select_topic leaves the state entirely unchanged and returns a string
containing "not found" and every stored topic identifier. -/
theorem C8_select_topic_not_found (content : List TopicRecord)
    (st : TutorState) (s : String)
    (h : ∀ r ∈ content, r.id ≠ normalize s) :
    (select_topic content st s).1 = st ∧
    (select_topic content st s).2 =
      "Topic '" ++ s ++ "' not found. " ++ list_topics content ∧
    occursIn "not found" (select_topic content st s).2 ∧
    ∀ r ∈ content, occursIn r.id (select_topic content st s).2 := by
  have hfind : content.find? (fun t => t.id == normalize s) = none := by
    rw [List.find?_eq_none]
    intro r hr
    simpa using h r hr
  have hsel : select_topic content st s =
      (st, "Topic '" ++ s ++ "' not found. " ++ list_topics content) := by
    simp only [select_topic, hfind]
  refine ⟨by rw [hsel], by rw [hsel], ?_, ?_⟩
  · rw [hsel]
    exact occursIn_append_right _ _ _
      (occursIn_append_left _ _ _ (by decide))
  · intro r hr
    rw [hsel]
    exact occursIn_append_left _ _ _ (occursIn_list_topics content r hr)

/-- C8 witness: probing the demo store with an unknown topic id. -/
theorem C8_select_topic_not_found_witness :
    (select_topic demoStore demoState "algebra").1 = demoState ∧
    (select_topic demoStore demoState "algebra").2 =
      "Topic '" ++ "algebra" ++ "' not found. " ++ list_topics demoStore ∧
    occursIn "not found" (select_topic demoStore demoState "algebra").2 ∧
    ∀ r ∈ demoStore, occursIn r.id (select_topic demoStore demoState "algebra").2 :=
  C8_select_topic_not_found demoStore demoState "algebra" (by decide)

/-! ### Claim C10 -/

/-- C10: no tool invocation changes the history field, and after any
sequence of tool calls from a fresh session the history is still the empty
list. -/
theorem C10_history_immutable (content : List TopicRecord) :
    (∀ st c, (applyTool content st c).1.history = st.history) ∧
    ∀ calls, (execTools content calls).history = [] := by
  have hstep : ∀ st c, (applyTool content st c).1.history = st.history := by
    intro st c
    cases c with
    | select_topic tid =>
      simp only [applyTool, select_topic]
      cases hf : content.find? (fun t => t.id == normalize tid) <;> simp [hf]
    | set_mode m sess raises =>
      simp only [applyTool, set_mode]
      cases hf : VOICE_MAP.find? (fun p => p.1 == normalize m) with
      | none => simp [hf]
      | some v =>
        obtain ⟨k, voice, style⟩ := v
        cases sess <;> cases raises <;> simp [hf]
    | _ => rfl
  refine ⟨hstep, fun calls => ?_⟩
  suffices h : ∀ (cs : List ToolCall) (st : TutorState),
      (cs.foldl (fun s c => (applyTool content s c).1) st).history = st.history by
    simpa [execTools] using h calls initState
  intro cs
  induction cs with
  | nil => intro st; rfl
  | cons c ct ih =>
    intro st
    rw [List.foldl_cons, ih, hstep]

/-! ### Claim C2 -/

/-- C2, amended: for every probe whose normalization equals the raw stored
identifier of some record, select_topic stores the normalized probe as
current_topic_id (leaving mode and history untouched) and returns
"Selected topic: title." for the first such record; the linear scan
compares the normalized probe against the raw stored identifier, which is
not itself normalized. -/
theorem C2_select_topic_valid (content : List TopicRecord) (st : TutorState)
    (topic_id : String)
    (hvalid : ∃ r ∈ content, r.id = normalize topic_id) :
    (select_topic content st topic_id).1.current_topic_id =
      some (normalize topic_id) ∧
    (select_topic content st topic_id).1.mode = st.mode ∧
    (select_topic content st topic_id).1.history = st.history ∧
    ∃ r, r ∈ content ∧ r.id = normalize topic_id ∧
      (select_topic content st topic_id).2 = "Selected topic: " ++ r.title ++ "." ∧
      occursIn r.title (select_topic content st topic_id).2 := by
  obtain ⟨r0, hr0, hid0⟩ := hvalid
  have hsome : (content.find? (fun t => t.id == normalize topic_id)).isSome := by
    rw [List.find?_isSome]
    exact ⟨r0, hr0, by simp [hid0]⟩
  obtain ⟨r, hfind⟩ := Option.isSome_iff_exists.mp hsome
  have hrmem := List.mem_of_find?_eq_some hfind
  have hrid : r.id = normalize topic_id := by
    simpa using List.find?_some hfind
  have hsel : select_topic content st topic_id =
      ({ st with current_topic_id := some (normalize topic_id) },
       "Selected topic: " ++ r.title ++ ".") := by
    simp only [select_topic, hfind]
  refine ⟨by rw [hsel], by rw [hsel], by rw [hsel], r, hrmem, hrid, by rw [hsel], ?_⟩
  rw [hsel]
  exact occursIn_append_right _ _ _ (occursIn_append_left _ _ _ (occursIn_refl _))

/-- C2 witness: selecting the demo topic by an upper-cased, padded probe. -/
theorem C2_select_topic_valid_witness :
    (select_topic demoStore initState " LOOPS ").1.current_topic_id =
      some (normalize " LOOPS ") ∧
    (select_topic demoStore initState " LOOPS ").1.mode = initState.mode ∧
    (select_topic demoStore initState " LOOPS ").1.history = initState.history ∧
    ∃ r, r ∈ demoStore ∧ r.id = normalize " LOOPS " ∧
      (select_topic demoStore initState " LOOPS ").2 =
        "Selected topic: " ++ r.title ++ "." ∧
      occursIn r.title (select_topic demoStore initState " LOOPS ").2 :=
  C2_select_topic_valid demoStore initState " LOOPS "
    ⟨demoTopic, by decide, by decide⟩

/-- Store whose single record has a stored identifier that is not in
normalized form. -/
def capitalStore : List TopicRecord :=
  [{ id := "Loops", title := "Loop Basics", summary := "s" }]

/-- C2, counterexample: "Loops" is the identifier of a record of the
store, but select_topic "Loops" normalizes the probe to "loops", the scan
against the raw stored id "Loops" misses, no topic is selected, and the
reply is the not-found message instead of one containing the title as a
selection confirmation. -/
theorem C2_counterexample :
    (⟨"Loops", "Loop Basics", "s", none, none⟩ : TopicRecord) ∈ capitalStore ∧
    (select_topic capitalStore initState "Loops").1.current_topic_id = none ∧
    (select_topic capitalStore initState "Loops").2 =
      "Topic 'Loops' not found. Available topics: Loops (Loop Basics)" := by
  decide

/-! ### Claim C9 -/

/-- C9, amended: the selection invariant — a stored current_topic_id
resolves to a record of the store — holds initially and is preserved by
every tool call, hence holds in every reachable state; when it holds and
the stored identifier is non-empty, the topic accessor returns the first
record with that identifier, and it returns none when no topic is
selected. (The unamended claim fails only for the empty-string
identifier, which resolves but is treated as no selection by the
accessor, see the counterexample.) -/
theorem C9_selection_invariant (content : List TopicRecord) :
    Inv content initState ∧
    (∀ st c, Inv content st → Inv content (applyTool content st c).1) ∧
    (∀ calls, Inv content (execTools content calls)) ∧
    (∀ st : TutorState, st.current_topic_id = none → st.topic content = none) ∧
    (∀ (st : TutorState) (tid : String), Inv content st →
      st.current_topic_id = some tid → tid ≠ "" →
      ∃ r, st.topic content = some r ∧ r ∈ content ∧ r.id = tid) := by
  have hinit : Inv content initState := by
    intro tid h
    simp [initState] at h
  have hstep : ∀ st c, Inv content st → Inv content (applyTool content st c).1 := by
    intro st c hinv
    cases c with
    | select_topic probe =>
      simp only [applyTool, select_topic]
      cases hf : content.find? (fun t => t.id == normalize probe) with
      | none => simpa using hinv
      | some r =>
        intro tid h
        simp only at h
        obtain rfl : normalize probe = tid := by simpa using h
        exact ⟨r, List.mem_of_find?_eq_some hf, by simpa using List.find?_some hf⟩
    | set_mode m sess raises =>
      simp only [applyTool, set_mode]
      cases hf : VOICE_MAP.find? (fun p => p.1 == normalize m) with
      | none => simpa using hinv
      | some v =>
        obtain ⟨k, voice, style⟩ := v
        cases sess <;> cases raises <;> simpa using hinv
    | _ => exact hinv
  refine ⟨hinit, hstep, ?_, ?_, ?_⟩
  · intro calls
    suffices h : ∀ (cs : List ToolCall) (st : TutorState), Inv content st →
        Inv content (cs.foldl (fun s c => (applyTool content s c).1) st) by
      exact h calls initState hinit
    intro cs
    induction cs with
    | nil => intro st h; exact h
    | cons c ct ih =>
      intro st h
      rw [List.foldl_cons]
      exact ih _ (hstep st c h)
  · intro st h
    simp [TutorState.topic, h]
  · intro st tid hinv hcur hne
    obtain ⟨r0, hr0, hid0⟩ := hinv tid hcur
    have hsome : (content.find? (fun t => t.id == tid)).isSome := by
      rw [List.find?_isSome]
      exact ⟨r0, hr0, by simp [hid0]⟩
    obtain ⟨r, hfind⟩ := Option.isSome_iff_exists.mp hsome
    refine ⟨r, ?_, List.mem_of_find?_eq_some hfind, by simpa using List.find?_some hfind⟩
    simp [TutorState.topic, hcur, hne, hfind]

/-- C9 witness: the resolution conjunct applied in the demo store. -/
theorem C9_selection_invariant_witness :
    ∃ r, TutorState.topic demoStore demoState = some r ∧ r ∈ demoStore ∧
      r.id = "loops" :=
  (C9_selection_invariant demoStore).2.2.2.2 demoState "loops"
    (fun tid h => by
      obtain rfl : "loops" = tid := by simpa [demoState] using h
      exact ⟨demoTopic, by decide, by decide⟩)
    rfl (by decide)

/-- Store containing a record whose identifier is the empty string. -/
def emptyIdStore : List TopicRecord :=
  [{ id := "", title := "Empty", summary := "s" }]

/-- C9, counterexample: select_topic "" stores the empty identifier, which
does resolve to a record of the store, yet the topic accessor returns
none because the code treats a stored empty string like no selection
(Python falsiness), contradicting the claim that the accessor then
returns that record. -/
theorem C9_counterexample :
    (select_topic emptyIdStore initState "").1.current_topic_id = some "" ∧
    (∃ r ∈ emptyIdStore, r.id = "") ∧
    TutorState.topic emptyIdStore (select_topic emptyIdStore initState "").1 =
      none := by
  decide

/-! ### Scoring claims -/

/-- With a topic selected, the evaluate_teachback reply is the feedback
band of the score followed by the score suffix. -/
theorem evaluate_eq_band (content : List TopicRecord) (st : TutorState)
    (t : TopicRecord) (setOrder : List String) (answer : String)
    (htopic : TutorState.topic content st = some t) :
    evaluate_teachback content st setOrder answer =
      specFeedbackBand (teachbackScore setOrder answer) ++ " (score: " ++
        toString (teachbackScore setOrder answer) ++ "/10)" := by
  simp only [evaluate_teachback, htopic]
  rfl

/-! ### Claim C1 -/

/-- C1, amended: the score is the truncation (not the rounding) of
(matches / max(1, keyword_count)) * 10, clamped to [1, 10]; the keywords
are the distinct lower-cased whitespace tokens of title plus summary of
length greater than 3, truncated to the first 12 in set-iteration order,
and matches counts keywords occurring as substrings of the lower-cased
answer; a zero-match answer yields score exactly 1. -/
theorem C1_score_trunc_formula (content : List TopicRecord) (st : TutorState)
    (t : TopicRecord) (setOrder : List String) (answer : String)
    (htopic : TutorState.topic content st = some t)
    (horder : ValidSetOrder t setOrder) :
    evaluate_teachback content st setOrder answer =
      specFeedbackBand (claimScoreTrunc (teachbackMatch setOrder answer)
        (teachbackKeywords setOrder).length) ++ " (score: " ++
      toString (claimScoreTrunc (teachbackMatch setOrder answer)
        (teachbackKeywords setOrder).length) ++ "/10)" ∧
    teachbackScore setOrder answer =
      claimScoreTrunc (teachbackMatch setOrder answer)
        (teachbackKeywords setOrder).length ∧
    (teachbackMatch setOrder answer = 0 → teachbackScore setOrder answer = 1) ∧
    (∀ kw ∈ teachbackKeywords setOrder, 3 < kw.length ∧
      kw ∈ pyTokens (lowerStr (t.title ++ " " ++ t.summary))) ∧
    (teachbackKeywords setOrder).length ≤ 12 := by
  have hscore : teachbackScore setOrder answer =
      claimScoreTrunc (teachbackMatch setOrder answer)
        (teachbackKeywords setOrder).length := by
    unfold teachbackScore claimScoreTrunc
    exact clamp_comm _
  refine ⟨?_, hscore, ?_, ?_, ?_⟩
  · rw [evaluate_eq_band content st t setOrder answer htopic, hscore]
  · intro h0
    simp [teachbackScore, h0]
  · intro kw hkw
    simp only [teachbackKeywords] at hkw
    have hkw' := List.take_subset 12 _ hkw
    rw [List.mem_filter] at hkw'
    refine ⟨by simpa using hkw'.2, ?_⟩
    exact List.mem_dedup.mp (horder.mem_iff.mp hkw'.1)
  · exact List.length_take_le _ _

/-- C1 witness: the score coincides with the truncation formula on the
demo topic. -/
theorem C1_score_trunc_formula_witness :
    teachbackScore demoOrder "loops repeat" =
      claimScoreTrunc (teachbackMatch demoOrder "loops repeat")
        (teachbackKeywords demoOrder).length :=
  (C1_score_trunc_formula demoStore demoState demoTopic demoOrder "loops repeat"
    (by decide) (by decide)).2.1

/-- C1, counterexample: on the demo topic (three keywords) and the answer
"loops repeat", matches = 2 of 3, the rounding formula of the claim gives
7, but the code truncates and reports score 6. -/
theorem C1_counterexample :
    ValidSetOrder demoTopic demoOrder ∧
    teachbackMatch demoOrder "loops repeat" = 2 ∧
    (teachbackKeywords demoOrder).length = 3 ∧
    claimScoreRound 2 3 = 7 ∧
    teachbackScore demoOrder "loops repeat" = 6 ∧
    evaluate_teachback demoStore demoState demoOrder "loops repeat" =
      "Good — covers some points; try adding a short example or definition. (score: 6/10)" := by
  decide

/-! ### Claim C3 -/

/-- C3, amended: evaluate_teachback is a function of the selected topic,
the answer and the set-iteration order, so two invocations with the same
topic, answer and order yield the identical string; the underlying score
is always an integer in [1, 10] and the reply is always the feedback band
plus score suffix. (Unamended, with the order left free, the claim fails:
with more than 12 distinct keywords two valid iteration orders can give
different scores, see the counterexample.) -/
theorem C3_deterministic_given_order (content : List TopicRecord)
    (st : TutorState) (o₁ o₂ : List String) (answer : String)
    (heq : o₁ = o₂) :
    evaluate_teachback content st o₁ answer =
      evaluate_teachback content st o₂ answer ∧
    1 ≤ teachbackScore o₁ answer ∧ teachbackScore o₁ answer ≤ 10 ∧
    ∀ t, TutorState.topic content st = some t →
      evaluate_teachback content st o₁ answer =
        specFeedbackBand (teachbackScore o₁ answer) ++ " (score: " ++
          toString (teachbackScore o₁ answer) ++ "/10)" := by
  subst heq
  exact ⟨rfl, teachbackScore_ge_one _ _, teachbackScore_le_ten _ _,
    fun t ht => evaluate_eq_band content st t o₁ answer ht⟩

/-- C3 witness: the score bound at a concrete invocation. -/
theorem C3_deterministic_given_order_witness :
    1 ≤ teachbackScore demoOrder "x" ∧ teachbackScore demoOrder "x" ≤ 10 :=
  ⟨(C3_deterministic_given_order demoStore demoState demoOrder demoOrder "x" rfl).2.1,
   (C3_deterministic_given_order demoStore demoState demoOrder demoOrder "x" rfl).2.2.1⟩

/-- Topic with fifteen distinct tokens, fourteen of them keyword-length. -/
def orderTopic : TopicRecord :=
  { id := "mix", title := "mix",
    summary := "alphaq bravoq charlq deltaq echoq foxtq golfq hoteq indiq juliq kiloq limaq mikeq noveq" }

def orderStore : List TopicRecord := [orderTopic]

def orderState : TutorState := { current_topic_id := some "mix" }

def ordFirst : List String :=
  ["mix", "alphaq", "bravoq", "charlq", "deltaq", "echoq", "foxtq", "golfq",
   "hoteq", "indiq", "juliq", "kiloq", "limaq", "mikeq", "noveq"]

def ordSecond : List String :=
  ["mikeq", "noveq", "alphaq", "bravoq", "charlq", "deltaq", "echoq", "foxtq",
   "golfq", "hoteq", "indiq", "juliq", "kiloq", "limaq", "mix"]

def fullAnswer : String :=
  "alphaq bravoq charlq deltaq echoq foxtq golfq hoteq indiq juliq kiloq limaq"

/-- C3, counterexample: the same topic and the same answer evaluated under
two valid set-iteration orders (the topic has 14 keyword-length tokens, so
the truncation to 12 keeps different keyword sets) give score 10 in one
invocation and score 8 in the other — two invocations on the same (topic,
answer) pair with different results. -/
theorem C3_counterexample :
    ValidSetOrder orderTopic ordFirst ∧ ValidSetOrder orderTopic ordSecond ∧
    evaluate_teachback orderStore orderState ordFirst fullAnswer =
      "Great — clear and covers main points. (score: 10/10)" ∧
    evaluate_teachback orderStore orderState ordSecond fullAnswer =
      "Great — clear and covers main points. (score: 8/10)" ∧
    evaluate_teachback orderStore orderState ordFirst fullAnswer ≠
      evaluate_teachback orderStore orderState ordSecond fullAnswer := by
  decide

/-! ### Claim C5 -/

/-- C5, amended: the reply is always the band of the score: at least 8
gives the "clear and covers main points" message, at least 5 and below 8
the "covers some points" message, below 5 the "needs improvement" message,
followed by "(score: N/10)"; an answer containing all reference keywords
yields score 10 and the "clear" band provided the keyword list is
non-empty (with no keyword-length token the code scores such an answer 1,
see the counterexample). -/
theorem C5_full_match_band (content : List TopicRecord) (st : TutorState)
    (t : TopicRecord) (setOrder : List String) (answer : String)
    (htopic : TutorState.topic content st = some t)
    (horder : ValidSetOrder t setOrder) :
    evaluate_teachback content st setOrder answer =
      specFeedbackBand (teachbackScore setOrder answer) ++ " (score: " ++
        toString (teachbackScore setOrder answer) ++ "/10)" ∧
    (8 ≤ teachbackScore setOrder answer →
      specFeedbackBand (teachbackScore setOrder answer) =
        "Great — clear and covers main points.") ∧
    (5 ≤ teachbackScore setOrder answer → teachbackScore setOrder answer < 8 →
      specFeedbackBand (teachbackScore setOrder answer) =
        "Good — covers some points; try adding a short example or definition.") ∧
    (teachbackScore setOrder answer < 5 →
      specFeedbackBand (teachbackScore setOrder answer) =
        "Needs improvement — try a short definition and an example.") ∧
    (teachbackKeywords setOrder ≠ [] →
      (∀ kw ∈ teachbackKeywords setOrder, occursIn kw (lowerStr answer)) →
      evaluate_teachback content st setOrder answer =
        "Great — clear and covers main points. (score: 10/10)") := by
  have hband := evaluate_eq_band content st t setOrder answer htopic
  refine ⟨hband, ?_, ?_, ?_, ?_⟩
  · intro h
    simp [specFeedbackBand, h]
  · intro h5 h8
    have h8' : ¬ 8 ≤ teachbackScore setOrder answer := by omega
    simp [specFeedbackBand, h8', h5]
  · intro h5
    have h8' : ¬ 8 ≤ teachbackScore setOrder answer := by omega
    have h5' : ¬ 5 ≤ teachbackScore setOrder answer := by omega
    simp [specFeedbackBand, h8', h5']
  · intro hne hall
    have hL : 1 ≤ (teachbackKeywords setOrder).length := by
      cases hkw : teachbackKeywords setOrder with
      | nil => exact absurd hkw hne
      | cons a l => simp [hkw]
    have hmatch : teachbackMatch setOrder answer =
        (teachbackKeywords setOrder).length := by
      unfold teachbackMatch
      rw [List.countP_eq_length]
      intro kw hkw
      exact hall kw hkw
    have hscore : teachbackScore setOrder answer = 10 := by
      have hdiv : (teachbackKeywords setOrder).length * 10 /
          (teachbackKeywords setOrder).length = 10 := by
        rw [Nat.mul_comm]
        exact Nat.mul_div_cancel _ (by omega)
      simp only [teachbackScore, hmatch, Nat.max_eq_right hL, hdiv]
      decide
    rw [hband, hscore]
    decide

/-- C5 witness: full-keyword answer on the demo topic scores 10 with the
"clear and covers main points" band. -/
theorem C5_full_match_band_witness :
    evaluate_teachback demoStore demoState demoOrder "loops repeat blocks" =
      "Great — clear and covers main points. (score: 10/10)" :=
  (C5_full_match_band demoStore demoState demoTopic demoOrder
    "loops repeat blocks" (by decide) (by decide)).2.2.2.2 (by decide) (by decide)

/-- Topic whose title and summary have no token longer than 3 characters,
so its keyword list is empty. -/
def shortTopic : TopicRecord := { id := "abc", title := "ab", summary := "cd ef" }

def shortStore : List TopicRecord := [shortTopic]

def shortState : TutorState := { current_topic_id := some "abc" }

def shortOrder : List String := ["ab", "cd", "ef"]

/-- C5, counterexample: with an empty keyword list any answer vacuously
contains all reference keywords, yet the code scores it 1 with the "needs
improvement" band, while the claim promises score exactly 10 and the
"clear" band. -/
theorem C5_counterexample :
    ValidSetOrder shortTopic shortOrder ∧
    teachbackKeywords shortOrder = [] ∧
    (∀ kw ∈ teachbackKeywords shortOrder, occursIn kw (lowerStr "anything")) ∧
    teachbackScore shortOrder "anything" = 1 ∧
    evaluate_teachback shortStore shortState shortOrder "anything" =
      "Needs improvement — try a short definition and an example. (score: 1/10)" := by
  decide

end TutorAgent
